import Mathlib

/-
Shallow embedding of src/index.js (a browser lazy-loading utility).

Modelling conventions:
- A DOM element is a record of the attributes and JS properties the code
  reads or writes.  The document is a store `List Elem`; an element
  reference is its index in the store (querySelectorAll yields distinct
  nodes, so indices are distinct references).
- The working set `els` is a `List (Option Nat)`: a slot holds an element
  reference or `none` for the JS value `undefined` (the code writes
  `els[i] = undefined` before compaction).  Reading `els[i]` out of range
  also yields `undefined`, hence `jsGet` joins the two layers.
- JS string truthiness: `if (srcset)` is false for both a missing
  attribute and the empty string; `getAttribute(x) !== null` is a pure
  presence test.  Both are modelled explicitly.
- `window.picturefill` presence is the flag `pf`; invoking it is recorded
  as an effect bit, never required.
- Numbers that the code compares (`frameCount`, `maxFrameCount`,
  `elsLength`, rectangle coordinates) are `Int`; `intersectionRatio` is a
  rational, compared only against 0.
-/

/-- A bounding rectangle as returned by getBoundingClientRect. -/
structure Rect where
  top : Int
  bottom : Int
  left : Int
  right : Int
deriving Repr, DecidableEq

/-- The viewport dimensions the code reads: window.innerWidth/innerHeight
with document.documentElement.clientWidth/clientHeight as truthiness
fallback. -/
structure Viewport where
  innerWidth : Int
  innerHeight : Int
  clientWidth : Int
  clientHeight : Int
deriving Repr, DecidableEq

/-- JS `window.innerWidth || document.documentElement.clientWidth`
(number truthiness: 0 falls through to the fallback). -/
def vpWidth (v : Viewport) : Int :=
  if v.innerWidth ≠ 0 then v.innerWidth else v.clientWidth

/-- JS `window.innerHeight || document.documentElement.clientHeight`. -/
def vpHeight (v : Viewport) : Int :=
  if v.innerHeight ≠ 0 then v.innerHeight else v.clientHeight

/-- A DOM element: the attributes and JS properties src/index.js touches.
`lazyloaded` is the transient JS property `element.lazyloaded`;
`dataLazyloaded` is the attribute `data-lazyloaded` written through
`element.dataset.lazyloaded`; they are distinct in the source and here.
`hasLoadListener` records whether the one-shot `_loaded` listener is
attached. -/
structure Elem where
  src : Option String := none
  srcset : Option String := none
  dataSrc : Option String := none
  dataSrcset : Option String := none
  dataLazyload : Option String := none
  dataLazyloaded : Option String := none
  hasLoadListener : Bool := false
  lazyloaded : Bool := false
  isSource : Bool := false
  rect : Rect := ⟨0, 0, 0, 0⟩
  parentRect : Rect := ⟨0, 0, 0, 0⟩
deriving Repr, DecidableEq

/-- JS truthiness of a string-valued attribute read: `null` (absent) and
the empty string are falsy. -/
def truthy : Option String → Bool
  | none => false
  | some s => !(s == "")

/-- The merged options object (defaults overridden by the caller). -/
structure Cfg where
  pageUpdatedEventName : Option String
  elements : String
  rootMargin : String
  threshold : ℚ
  maxFrameCount : Int
deriving Repr, DecidableEq

/-- The default options literal at the top of lazyLoad. -/
def defaultOptions : Cfg :=
  { pageUpdatedEventName := some "page:updated"
    elements := "img[data-src], img[data-srcset], source[data-srcset], iframe[data-src], video[data-src], [data-lazyload]"
    rootMargin := "0px"
    threshold := 0
    maxFrameCount := 10 }

/-- Models `_elementInViewport`: for a SOURCE tag the parent node's rectangle is
used; the element is in viewport when bottom>0, right>0, left<width,
top<height. -/
def elementInViewport (v : Viewport) (e : Elem) : Bool :=
  let r := if e.isSource then e.parentRect else e.rect
  decide (0 < r.bottom) && decide (0 < r.right) &&
    decide (r.left < vpWidth v) && decide (r.top < vpHeight v)

/-- Models `_removeDataAttrs`: removes data-src, data-srcset, data-lazyload. -/
def removeDataAttrs (e : Elem) : Elem :=
  { e with dataSrc := none, dataSrcset := none, dataLazyload := none }

/-- Models `_loaded`: the one-shot load handler; removes itself then the data-
attributes. -/
def loadedHandler (e : Elem) : Elem :=
  removeDataAttrs { e with hasLoadListener := false }

/-- Result of `_updateElement`: the updated element plus whether the
third-party picturefill reflow was invoked. -/
structure UpdateResult where
  elem : Elem
  picturefillCalled : Bool
deriving Repr, DecidableEq

/-- Models `_updateElement` with `pf` = presence of `window.picturefill`.
Reads data-srcset, data-src and the presence of data-lazyload up front;
copies truthy deferred values to the live attributes; for the generic
marker sets data-lazyloaded, removes the load listener and strips the
data- attributes immediately. -/
def updateElement (pf : Bool) (e : Elem) : UpdateResult :=
  let srcset := e.dataSrcset
  let src := e.dataSrc
  let dlazyload := e.dataLazyload.isSome
  let e1 := if truthy srcset then { e with srcset := srcset } else e
  let pfCalled := truthy srcset && pf
  let e2 := if truthy src then { e1 with src := src } else e1
  let e3 :=
    if dlazyload then
      removeDataAttrs { e2 with dataLazyloaded := some "", hasLoadListener := false }
    else e2
  ⟨e3, pfCalled⟩

/-- Per-element activation in the `old` (polling) scan: the code sets the
`lazyloaded` property, attaches the `load` listener, then calls
`_updateElement`. -/
def oldActivateElem (pf : Bool) (e : Elem) : Elem :=
  (updateElement pf { e with lazyloaded := true, hasLoadListener := true }).elem

/-- Per-element activation in the `new` (observer) callback: attaches the
`load` listener then calls `_updateElement`. -/
def newActivateElem (pf : Bool) (e : Elem) : Elem :=
  (updateElement pf { e with hasLoadListener := true }).elem

/-- Per-element activation in the `really-old` path: `_updateElement`
followed immediately by `_removeDataAttrs`. -/
def reallyOldActivateElem (pf : Bool) (e : Elem) : Elem :=
  removeDataAttrs (updateElement pf e).elem

/-- Reading `els[i]` in JS: out of range or an `undefined` slot both give
`undefined`. -/
def jsGet (l : List (Option Nat)) (i : Nat) : Option Nat :=
  (l.get? i).join

/-- Models `els.splice(i, 1)`: removes the entry at index i (no-op out of
range). -/
def spliceOne (l : List (Option Nat)) (i : Nat) : List (Option Nat) :=
  l.take i ++ l.drop (i + 1)

/-- The working-set compaction loop of the `old` scan:
`for (i = 0; i < elsLength; i++) if (els[i] === undefined) els.splice(i, 1)`
with `bound` the cached pre-scan `elsLength` (i increments past a splice,
and reads beyond the shrunken array return `undefined`). -/
def cleanup (els : List (Option Nat)) (bound : Nat) : List (Option Nat) :=
  (List.range bound).foldl
    (fun l i => if jsGet l i = none then spliceOne l i else l) els

/-- Accumulator through the `old`-scan element loop: the element store,
the working set, and the references activated so far. -/
structure ScanAcc where
  doc : List Elem
  els : List (Option Nat)
  acts : List Nat
deriving Repr, DecidableEq

/-- One iteration of the `old`-scan loop body: if `els[i]` holds an
element that is not flagged `lazyloaded` and is in the viewport, blank
its slot, flag it, attach the load listener and update it. -/
def scanBody (v : Viewport) (pf : Bool) (acc : ScanAcc) (i : Nat) : ScanAcc :=
  match jsGet acc.els i with
  | some id =>
    match acc.doc.get? id with
    | some e =>
      if e.lazyloaded = false && elementInViewport v e then
        { doc := acc.doc.set id (oldActivateElem pf e)
          els := acc.els.set i none
          acts := acc.acts ++ [id] }
      else acc
    | none => acc
  | none => acc

/-- The full `old`-scan element loop (`elsLength = els.length` is cached
before the loop and used as the bound). -/
def scanPass (v : Viewport) (pf : Bool) (doc : List Elem) (els : List (Option Nat)) : ScanAcc :=
  (List.range els.length).foldl (scanBody v pf) ⟨doc, els, []⟩

/-- The mutable module-level state the `old` strategy runs over. -/
structure OldState where
  doc : List Elem
  els : List (Option Nat)
  elsLength : Int
  frameCount : Int
deriving Repr, DecidableEq

/-- Output of one `_setSrcs` invocation in `old` mode: the new state,
whether the debounced scan branch ran, the references activated, and
whether requestAnimationFrame was called again. -/
structure OldStepOut where
  state : OldState
  scanned : Bool
  activated : List Nat
  scheduled : Bool
deriving Repr, DecidableEq

/-- One invocation of `_setSrcs` in `old` mode: scans only when
`frameCount === options.maxFrameCount`; after a scan it compacts the
working set, refreshes `elsLength`, sets `frameCount` to -1; finally, if
`elsLength > 0`, increments `frameCount` and reschedules itself. -/
def oldStep (cfg : Cfg) (v : Viewport) (pf : Bool) (s : OldState) : OldStepOut :=
  if s.frameCount = cfg.maxFrameCount then
    let a := scanPass v pf s.doc s.els
    let els2 := cleanup a.els s.els.length
    let len2 : Int := els2.length
    if 0 < len2 then
      ⟨⟨a.doc, els2, len2, 0⟩, true, a.acts, true⟩
    else
      ⟨⟨a.doc, els2, len2, -1⟩, true, a.acts, false⟩
  else if 0 < s.elsLength then
    ⟨{ s with frameCount := s.frameCount + 1 }, false, [], true⟩
  else
    ⟨s, false, [], false⟩

/-- n-fold iteration of the `old`-mode frame callback. -/
def oldIter (cfg : Cfg) (v : Viewport) (pf : Bool) : Nat → OldState → OldState
  | 0, s => s
  | n + 1, s => oldIter cfg v pf n (oldStep cfg v pf s).state

/-- The concatenated activation trace of the first n `old`-mode frame
callbacks starting from state s. -/
def oldTrace (cfg : Cfg) (v : Viewport) (pf : Bool) : Nat → OldState → List Nat
  | 0, _ => []
  | n + 1, s => (oldStep cfg v pf s).activated ++ oldTrace cfg v pf n (oldStep cfg v pf s).state

/-- An IntersectionObserver entry: the observed target reference and its
intersection ratio. -/
structure Entry where
  target : Nat
  ratioVal : ℚ
deriving Repr, DecidableEq

/-- State and effects of one `_intersection` callback invocation. -/
structure IntersectOut where
  doc : List Elem
  elsLength : Int
  observerConnected : Bool
  unobserved : List Nat
  activated : List Nat
deriving Repr, DecidableEq

/-- Body of the entry loop in `_intersection`: for an entry with positive
intersection ratio, decrement `elsLength`, unobserve the target, attach
the load listener and update it. -/
def interBody (pf : Bool) (o : IntersectOut) (en : Entry) : IntersectOut :=
  if 0 < en.ratioVal then
    { o with
      elsLength := o.elsLength - 1
      unobserved := o.unobserved ++ [en.target]
      doc :=
        match o.doc.get? en.target with
        | some e => o.doc.set en.target (newActivateElem pf e)
        | none => o.doc
      activated := o.activated ++ [en.target] }
  else o

/-- Models `_intersection`: disconnects the observer when `elsLength` is already
0 (checked before the loop), then processes the batch of entries. -/
def intersectionCb (pf : Bool) (entries : List Entry) (doc : List Elem)
    (elsLength : Int) (conn : Bool) : IntersectOut :=
  let conn2 := if elsLength = 0 then false else conn
  entries.foldl (interBody pf) ⟨doc, elsLength, conn2, [], []⟩

/-- Models `_htmlCollectionToArray(document.querySelectorAll(...))`: the store
holds exactly the matched elements, so the working set is the list of all
store indices (the copy loop `a[--i] = collection[i]` preserves order). -/
def queryEls (doc : List Elem) : List (Option Nat) :=
  (List.range doc.length).map some

/-- The observe loop of the `new` branch of `_setSrcs`:
`if (els[i] && els[i].lazyloaded === undefined) observer.observe(els[i])`. -/
def observeList (doc : List Elem) (els : List (Option Nat)) : List Nat :=
  (List.range els.length).filterMap fun i =>
    match jsGet els i with
    | some id =>
      match doc.get? id with
      | some e => if e.lazyloaded = false then some id else none
      | none => none
    | none => none

/-- The `really-old` branch of `_setSrcs`: for every defined working-set
slot, `_updateElement` then `_removeDataAttrs` (the working set itself is
emptied by the caller-visible state below). -/
def reallyOldPass (pf : Bool) (doc : List Elem) (els : List (Option Nat)) : List Elem :=
  (List.range els.length).foldl
    (fun d i =>
      match jsGet els i with
      | some id =>
        match d.get? id with
        | some e => d.set id (reallyOldActivateElem pf e)
        | none => d
      | none => d)
    doc

/-- State after `_init` ran once: the store, working set, the counters,
whether an animation frame was requested, and which references were
registered with the observer. -/
structure InitOut where
  doc : List Elem
  els : List (Option Nat)
  elsLength : Int
  frameCount : Int
  scheduled : Bool
  observed : List Nat
deriving Repr, DecidableEq

/-- Models `_init` followed by the `_setSrcs` dispatch on the strategy tag:
rebuilds the working set from the document, resets `frameCount` to
`maxFrameCount`, and runs the selected strategy once.  An unrecognized
tag falls through the switch (no default case). -/
def runInit (cfg : Cfg) (v : Viewport) (pf : Bool) (ct : String) (doc : List Elem) : InitOut :=
  let els := queryEls doc
  let elsLength : Int := els.length
  let frameCount := cfg.maxFrameCount
  if ct = "really-old" then
    { doc := reallyOldPass pf doc els, els := [], elsLength := elsLength
      frameCount := frameCount, scheduled := false, observed := [] }
  else if ct = "old" then
    let out := oldStep cfg v pf ⟨doc, els, elsLength, frameCount⟩
    { doc := out.state.doc, els := out.state.els, elsLength := out.state.elsLength
      frameCount := out.state.frameCount, scheduled := out.scheduled, observed := [] }
  else if ct = "new" then
    { doc := doc, els := els, elsLength := elsLength, frameCount := frameCount
      scheduled := false, observed := observeList doc els }
  else
    { doc := doc, els := els, elsLength := elsLength, frameCount := frameCount
      scheduled := false, observed := [] }

/-- A JS value as far as the capability probe manipulates one. -/
inductive JSVal where
  | undefVal : JSVal
  | str : String → JSVal
  | func : JSVal
deriving Repr, DecidableEq

/-- The JS `typeof` operator on the values above (always a string). -/
def jsTypeof : JSVal → String
  | .undefVal => "undefined"
  | .str _ => "string"
  | .func => "function"

/-- JS strict equality `===`: values of different runtime types are never
equal; in particular a string is never `===` the value `undefined`. -/
def jsStrictEq : JSVal → JSVal → Bool
  | .undefVal, .undefVal => true
  | .str a, .str b => a == b
  | .func, .func => true
  | _, _ => false

/-- The host environment capabilities `_lazyLoad` probes. -/
structure Env where
  hasAddEventListener : Bool
  hasRequestAnimationFrame : Bool
  hasGetBoundingClientRect : Bool
  hasIntersectionObserver : Bool
deriving Repr, DecidableEq

/-- The literal geometry probe in `_lazyLoad`:
`typeof document.body.getBoundingClientRect === undefined` — the left
side is the string returned by `typeof`, the right side is the value
`undefined`. -/
def gbcrProbe (env : Env) : Bool :=
  jsStrictEq
    (.str (jsTypeof (if env.hasGetBoundingClientRect then .func else .undefVal)))
    .undefVal

/-- The capability check in `_lazyLoad` that assigns `checkType`. -/
def detectCheckType (env : Env) : String :=
  if !env.hasAddEventListener || !env.hasRequestAnimationFrame || gbcrProbe env then
    "really-old"
  else if env.hasIntersectionObserver then "new"
  else "old"

/-- Module-level state visible after `_lazyLoad` or a re-scan: the chosen
strategy tag, the `_init` outcome, and whether the re-scan listener was
registered. -/
structure SysState where
  checkType : String
  ini : InitOut
  rescanListener : Bool
deriving Repr, DecidableEq

/-- Models `_lazyLoad`: probe the environment once, assign `checkType`, run
`_init`, and register `_init` on the page-updated event when the
configured name is truthy. -/
def lazyLoadRun (env : Env) (cfg : Cfg) (v : Viewport) (pf : Bool) (doc : List Elem) : SysState :=
  let ct := detectCheckType env
  { checkType := ct
    ini := runInit cfg v pf ct doc
    rescanListener := truthy cfg.pageUpdatedEventName }

/-- One occurrence of the page-updated event: the registered handler is
`_init` alone, which re-reads nothing from the environment (the `envNow`
argument — the capabilities at re-scan time — is not consulted by the
code). -/
def rescanRun (_envNow : Env) (cfg : Cfg) (v : Viewport) (pf : Bool)
    (doc : List Elem) (s : SysState) : SysState :=
  { s with ini := runInit cfg v pf s.checkType doc }

example : truthy (some "") = false := by decide
example : (updateElement true { dataSrc := some "a" }).elem.src = some "a" := by decide
example : (updateElement true { dataLazyload := some "" }).elem.dataLazyload = none := by decide
example : detectCheckType ⟨true, true, false, false⟩ = "old" := by decide
example : cleanup [none, none, some 2] 3 = [none, some 2] := by decide

/-! List index/update helper lemmas used by the fold arguments below. -/

theorem lget_some_lt {α : Type} {l : List α} {i : Nat} {x : α}
    (h : l.get? i = some x) : i < l.length := by
  induction l generalizing i with
  | nil => simp [List.get?] at h
  | cons a t ih =>
    cases i with
    | zero => simp
    | succ j =>
      simp only [List.get?] at h
      exact Nat.succ_lt_succ (ih h)

theorem lget_set_self {α : Type} (l : List α) (i : Nat) (a : α)
    (h : i < l.length) : (l.set i a).get? i = some a := by
  induction l generalizing i with
  | nil => simp at h
  | cons b t ih =>
    cases i with
    | zero => simp [List.set, List.get?]
    | succ j =>
      simp only [List.set, List.get?]
      exact ih j (Nat.lt_of_succ_lt_succ h)

theorem lget_set_ne {α : Type} (l : List α) {i j : Nat} (a : α)
    (h : i ≠ j) : (l.set i a).get? j = l.get? j := by
  induction l generalizing i j with
  | nil => simp
  | cons b t ih =>
    cases i with
    | zero =>
      cases j with
      | zero => exact absurd rfl h
      | succ k => simp [List.set, List.get?]
    | succ m =>
      cases j with
      | zero => simp [List.set, List.get?]
      | succ k =>
        simp only [List.set, List.get?]
        exact ih fun hc => h (congrArg Nat.succ hc)

theorem append_get_mid {α : Type} (P : List α) (x : α) (D : List α) :
    (P ++ x :: D).get? P.length = some x := by
  induction P with
  | nil => rfl
  | cons a t ih =>
    simp only [List.cons_append, List.length_cons, List.get?]
    exact ih

theorem append_set_mid {α : Type} (P : List α) (x y : α) (D : List α) :
    (P ++ x :: D).set P.length y = P ++ y :: D := by
  induction P with
  | nil => rfl
  | cons a t ih =>
    simp only [List.cons_append, List.length_cons, List.set, List.append_eq]
    rw [ih]

theorem append_get_at {α : Type} (P : List α) (x : α) (D : List α) {n : Nat}
    (h : P.length = n) : (P ++ x :: D).get? n = some x :=
  h ▸ append_get_mid P x D

theorem append_set_at {α : Type} (P : List α) (x y : α) (D : List α) {n : Nat}
    (h : P.length = n) : (P ++ x :: D).set n y = P ++ y :: D :=
  h ▸ append_set_mid P x y D

theorem drop_cons_of_get {α : Type} {l : List α} {k : Nat} {x : α}
    (h : l.get? k = some x) : l.drop k = x :: l.drop (k + 1) := by
  induction l generalizing k with
  | nil => simp [List.get?] at h
  | cons a t ih =>
    cases k with
    | zero =>
      simp only [List.get?] at h
      cases h
      simp
    | succ j =>
      simp only [List.get?] at h
      simpa [List.drop] using ih h

theorem take_succ_of_get {α : Type} {l : List α} {k : Nat} {x : α}
    (h : l.get? k = some x) : l.take (k + 1) = l.take k ++ [x] := by
  induction l generalizing k with
  | nil => simp [List.get?] at h
  | cons a t ih =>
    cases k with
    | zero =>
      simp only [List.get?] at h
      cases h
      simp
    | succ j =>
      simp only [List.get?] at h
      simpa [List.take] using ih h

/-! Claim theorems. -/

/-- Claim C1: the claim states that every environment lacking
getBoundingClientRect is tagged `really-old`.  The code's probe is
`typeof document.body.getBoundingClientRect === undefined`, which compares
the string produced by `typeof` with the value `undefined` and is
therefore always false, so a missing getBoundingClientRect never forces
the `really-old` tag: with event listening and animation frames available
the detector returns `old` (or `new` when IntersectionObserver exists)
even though getBoundingClientRect is unavailable. -/
theorem C1_detector_gbcr_never_checked :
    detectCheckType ⟨true, true, false, false⟩ = "old" ∧
    detectCheckType ⟨true, true, false, true⟩ = "new" ∧
    gbcrProbe ⟨true, true, false, false⟩ = false := by
  decide

/-- Claim C7: the generic-marker activation path is idempotent — once an
element carrying data-lazyload has been updated (marker set, deferred
attributes stripped), a second call to `_updateElement` changes no
attribute and invokes no picturefill reflow, whatever the picturefill
availability at either call. -/
theorem C7_generic_marker_idempotent (pf pf2 : Bool) (e : Elem)
    (h : e.dataLazyload.isSome = true) :
    updateElement pf2 (updateElement pf e).elem = ⟨(updateElement pf e).elem, false⟩ := by
  simp only [updateElement, h, if_true]
  simp [removeDataAttrs, truthy]

/-- Witness for C7 at a concrete element carrying only the generic
marker (with an empty value: the check is presence-only). -/
theorem C7_witness :
    ((⟨none, none, some "x", none, some "", none, false, false, false,
        ⟨0, 0, 0, 0⟩, ⟨0, 0, 0, 0⟩⟩ : Elem).dataLazyload.isSome = true) ∧
    updateElement false
        (updateElement true (⟨none, none, some "x", none, some "", none, false, false, false,
          ⟨0, 0, 0, 0⟩, ⟨0, 0, 0, 0⟩⟩ : Elem)).elem =
      ⟨(updateElement true (⟨none, none, some "x", none, some "", none, false, false, false,
          ⟨0, 0, 0, 0⟩, ⟨0, 0, 0, 0⟩⟩ : Elem)).elem, false⟩ :=
  ⟨by decide,
    C7_generic_marker_idempotent true false
      (⟨none, none, some "x", none, some "", none, false, false, false,
        ⟨0, 0, 0, 0⟩, ⟨0, 0, 0, 0⟩⟩ : Elem) (by decide)⟩

/-- Claim C10: an element carrying none of data-src, data-srcset,
data-lazyload is left entirely unchanged by `_updateElement` — no
attribute written or removed, no listener change, and no picturefill
reflow invoked, whatever picturefill availability. -/
theorem C10_updater_frame (pf : Bool) (e : Elem)
    (h1 : e.dataSrc = none) (h2 : e.dataSrcset = none) (h3 : e.dataLazyload = none) :
    updateElement pf e = ⟨e, false⟩ := by
  simp [updateElement, h1, h2, h3, truthy]

/-- Claim C8: with a selector matching zero elements (`doc = []`) every
strategy tag — including an unrecognized one — completes with an empty
working set, requests no animation frame, observes no element, and (the
model being total) raises no error. -/
theorem C8_zero_elements_noop (cfg : Cfg) (v : Viewport) (pf : Bool) (ct : String) :
    (runInit cfg v pf ct []).els = [] ∧
    (runInit cfg v pf ct []).scheduled = false ∧
    (runInit cfg v pf ct []).observed = [] ∧
    (runInit cfg v pf ct []).doc = [] := by
  unfold runInit
  simp only [queryEls, List.length_nil, List.range_zero, List.map_nil]
  split_ifs with h1 h2 h3
  · simp [reallyOldPass]
  · simp [oldStep, scanPass, cleanup]
  · simp [observeList]
  · simp

theorem lget_lt_some {α : Type} {l : List α} {i : Nat} (h : i < l.length) :
    ∃ x, l.get? i = some x := by
  induction l generalizing i with
  | nil => simp at h
  | cons a t ih =>
    cases i with
    | zero => exact ⟨a, rfl⟩
    | succ j => exact ih (Nat.lt_of_succ_lt_succ h)

/-- The body of an index-wise in-place store rewrite. -/
def setAtWith {α : Type} (f : α → α) (d : List α) (i : Nat) : List α :=
  match d.get? i with
  | some e => d.set i (f e)
  | none => d

/-- Folding an index-wise in-place update over `range k` rewrites the
first k entries of the store by f and leaves the rest. -/
theorem fold_set_take_drop {α : Type} (f : α → α) (doc : List α) :
    ∀ k, k ≤ doc.length →
      (List.range k).foldl (setAtWith f) doc = (doc.take k).map f ++ doc.drop k := by
  intro k
  induction k with
  | zero => intro _; simp
  | succ k ih =>
    intro hk
    have hklt : k < doc.length := Nat.lt_of_succ_le hk
    obtain ⟨dk, hdk⟩ := lget_lt_some hklt
    rw [List.range_succ, List.foldl_append, ih (Nat.le_of_lt hklt)]
    have hdrop : doc.drop k = dk :: doc.drop (k + 1) := drop_cons_of_get hdk
    have hP : ((doc.take k).map f).length = k := by
      simp [List.length_take, Nat.min_eq_left (Nat.le_of_lt hklt)]
    rw [hdrop]
    simp only [List.foldl_cons, List.foldl_nil]
    have hbody :
        setAtWith f ((doc.take k).map f ++ dk :: doc.drop (k + 1)) k
          = (doc.take k).map f ++ f dk :: doc.drop (k + 1) := by
      unfold setAtWith
      rw [append_get_at _ _ _ hP]
      exact append_set_at _ _ _ _ hP
    rw [hbody, take_succ_of_get hdk]
    simp

/-- Reading the freshly built working set: slot i holds reference i. -/
theorem jsGet_queryEls (doc : List Elem) {i : Nat} (h : i < doc.length) :
    jsGet (queryEls doc) i = some i := by
  unfold jsGet queryEls
  rw [List.get?_map, List.get?_range h]
  rfl

/-- The `really-old` pass over the fresh working set maps the per-element
activation over the whole store. -/
theorem reallyOldPass_queryEls (pf : Bool) (doc : List Elem) :
    reallyOldPass pf doc (queryEls doc) = doc.map (reallyOldActivateElem pf) := by
  unfold reallyOldPass
  have hlen : (queryEls doc).length = doc.length := by simp [queryEls]
  rw [hlen]
  have hext :
      (List.range doc.length).foldl
        (fun d i =>
          match jsGet (queryEls doc) i with
          | some id =>
            match d.get? id with
            | some e => d.set id (reallyOldActivateElem pf e)
            | none => d
          | none => d) doc
      = (List.range doc.length).foldl (setAtWith (reallyOldActivateElem pf)) doc := by
    apply List.foldl_ext
    intro d i hi
    rw [jsGet_queryEls doc (List.mem_range.mp hi)]
    cases hd : d.get? i <;> simp only [setAtWith, hd]
  rw [hext, fold_set_take_drop (reallyOldActivateElem pf) doc doc.length (Nat.le_refl _)]
  simp

/-- The `really-old` branch of `_init` in closed form. -/
theorem runInit_really_old (cfg : Cfg) (v : Viewport) (pf : Bool) (doc : List Elem) :
    runInit cfg v pf "really-old" doc =
      { doc := doc.map (reallyOldActivateElem pf), els := []
        elsLength := ((queryEls doc).length : Int), frameCount := cfg.maxFrameCount
        scheduled := false, observed := [] } := by
  unfold runInit
  rw [if_pos rfl, reallyOldPass_queryEls]

/-- Claim C4: under `really-old`, one synchronous pass activates every
collected element (pointwise over every store reference): the element
with a truthy deferred source ends with its live src equal to it, all
three deferred attributes are stripped from every element, the working
set is emptied, and nothing further is scheduled or observed. -/
theorem C4_really_old_activates_all (cfg : Cfg) (v : Viewport) (pf : Bool)
    (doc : List Elem) (id : Nat) (e : Elem) (hid : doc.get? id = some e) :
    (runInit cfg v pf "really-old" doc).els = [] ∧
    (runInit cfg v pf "really-old" doc).scheduled = false ∧
    (runInit cfg v pf "really-old" doc).observed = [] ∧
    (runInit cfg v pf "really-old" doc).doc.get? id = some (reallyOldActivateElem pf e) ∧
    (reallyOldActivateElem pf e).dataSrc = none ∧
    (reallyOldActivateElem pf e).dataSrcset = none ∧
    (reallyOldActivateElem pf e).dataLazyload = none ∧
    (truthy e.dataSrc = true → (reallyOldActivateElem pf e).src = e.dataSrc) := by
  refine ⟨by simp [runInit_really_old], by simp [runInit_really_old],
    by simp [runInit_really_old], ?_, ?_, ?_, ?_, ?_⟩
  · rw [runInit_really_old]
    simp only [List.get?_map, hid]
    rfl
  · simp [reallyOldActivateElem, removeDataAttrs]
  · simp [reallyOldActivateElem, removeDataAttrs]
  · simp [reallyOldActivateElem, removeDataAttrs]
  · intro hs
    simp only [reallyOldActivateElem, removeDataAttrs, updateElement, hs, if_true]
    split_ifs <;> simp [removeDataAttrs]

def vpStd : Viewport := ⟨1024, 768, 1024, 768⟩

def elDataSrc (s : String) : Elem := { dataSrc := some s }

def doc5 : List Elem :=
  [elDataSrc "a", elDataSrc "b", elDataSrc "c", elDataSrc "d", elDataSrc "e"]

/-- Witness for C4: the spec scenario, five elements with deferred
sources, instantiated at the first of them. -/
theorem C4_witness :
    (doc5.get? 0 = some (elDataSrc "a")) ∧
    ((runInit defaultOptions vpStd true "really-old" doc5).els = [] ∧
      (runInit defaultOptions vpStd true "really-old" doc5).scheduled = false ∧
      (runInit defaultOptions vpStd true "really-old" doc5).observed = [] ∧
      (runInit defaultOptions vpStd true "really-old" doc5).doc.get? 0 =
        some (reallyOldActivateElem true (elDataSrc "a")) ∧
      (reallyOldActivateElem true (elDataSrc "a")).dataSrc = none ∧
      (reallyOldActivateElem true (elDataSrc "a")).dataSrcset = none ∧
      (reallyOldActivateElem true (elDataSrc "a")).dataLazyload = none ∧
      (truthy (elDataSrc "a").dataSrc = true →
        (reallyOldActivateElem true (elDataSrc "a")).src = (elDataSrc "a").dataSrc)) :=
  ⟨by decide,
    C4_really_old_activates_all defaultOptions vpStd true doc5 0 (elDataSrc "a") (by decide)⟩

def envNoIO : Env := ⟨true, true, true, false⟩

def envWithIO : Env := ⟨true, true, true, true⟩

/-- Claim C3 counterexample: start in an environment without the
observation API (tag `old`), then fire the re-scan event with the
observation API now available.  The claim says the strategy is re-derived
from fresh capability checks, which would give `new`; the code's re-scan
handler is `_init` alone, so the tag stays `old`. -/
theorem C3_counterexample :
    (rescanRun envWithIO defaultOptions vpStd false []
        (lazyLoadRun envNoIO defaultOptions vpStd false [])).checkType = "old" ∧
    detectCheckType envWithIO = "new" := by
  decide

/-- Claim C3 (amended): the strategy tag is derived from environment
capability checks only at the initial lazyLoad() call; each re-scan
event re-runs `_init`, which rebuilds the working set but leaves the
previously computed tag untouched, whatever the environment at re-scan
time. -/
theorem C3_amended_checkType_fixed (envNow env : Env) (cfg : Cfg) (v : Viewport)
    (pf : Bool) (doc doc2 : List Elem) (s : SysState) :
    (rescanRun envNow cfg v pf doc s).checkType = s.checkType ∧
    (lazyLoadRun env cfg v pf doc2).checkType = detectCheckType env := by
  exact ⟨rfl, rfl⟩

def c2Elem : Elem := { dataSrc := some "img.png", rect := ⟨0, 10, 0, 10⟩ }

/-- Claim C2 counterexample: an element with only a deferred single
source, visible in the viewport, processed by the `old`-strategy scan
(which also runs its compaction): it is activated and the working set is
compacted, yet data-src is still present afterwards and a one-shot load
listener was attached — the old-strategy compaction path does not strip
the deferred attributes immediately, contrary to the claim. -/
theorem C2_counterexample :
    (oldStep defaultOptions vpStd false ⟨[c2Elem], [some 0], 1, 10⟩).activated = [0] ∧
    (oldStep defaultOptions vpStd false ⟨[c2Elem], [some 0], 1, 10⟩).state.els = [] ∧
    ((oldStep defaultOptions vpStd false ⟨[c2Elem], [some 0], 1, 10⟩).state.doc.get? 0).map
        Elem.dataSrc = some (some "img.png") ∧
    ((oldStep defaultOptions vpStd false ⟨[c2Elem], [some 0], 1, 10⟩).state.doc.get? 0).map
        Elem.hasLoadListener = some true := by
  decide

/-- Claim C2 (amended): for an element with deferred source/source-set
values and no generic marker, the deferred attributes survive activation
in both the `old` scan path and the `new` observer path — each attaches
the one-shot load listener, and only the load handler strips them — while
the `really-old` path alone strips them immediately after updating. -/
theorem C2_amended_strip_timing (pf : Bool) (e : Elem) (h : e.dataLazyload = none) :
    ((oldActivateElem pf e).dataSrc = e.dataSrc ∧
      (oldActivateElem pf e).dataSrcset = e.dataSrcset ∧
      (oldActivateElem pf e).hasLoadListener = true ∧
      (loadedHandler (oldActivateElem pf e)).dataSrc = none ∧
      (loadedHandler (oldActivateElem pf e)).dataSrcset = none) ∧
    ((newActivateElem pf e).dataSrc = e.dataSrc ∧
      (newActivateElem pf e).dataSrcset = e.dataSrcset ∧
      (newActivateElem pf e).hasLoadListener = true ∧
      (loadedHandler (newActivateElem pf e)).dataSrc = none ∧
      (loadedHandler (newActivateElem pf e)).dataSrcset = none) ∧
    ((reallyOldActivateElem pf e).dataSrc = none ∧
      (reallyOldActivateElem pf e).dataSrcset = none) := by
  simp only [oldActivateElem, newActivateElem, reallyOldActivateElem, loadedHandler,
    updateElement, removeDataAttrs, h, Option.isSome_none]
  split_ifs <;> simp_all

/-- Witness for C2 (amended) at a concrete element with a deferred
source and no generic marker. -/
theorem C2_amended_witness :
    (c2Elem.dataLazyload = none) ∧
    (((oldActivateElem false c2Elem).dataSrc = c2Elem.dataSrc ∧
      (oldActivateElem false c2Elem).dataSrcset = c2Elem.dataSrcset ∧
      (oldActivateElem false c2Elem).hasLoadListener = true ∧
      (loadedHandler (oldActivateElem false c2Elem)).dataSrc = none ∧
      (loadedHandler (oldActivateElem false c2Elem)).dataSrcset = none) ∧
    ((newActivateElem false c2Elem).dataSrc = c2Elem.dataSrc ∧
      (newActivateElem false c2Elem).dataSrcset = c2Elem.dataSrcset ∧
      (newActivateElem false c2Elem).hasLoadListener = true ∧
      (loadedHandler (newActivateElem false c2Elem)).dataSrc = none ∧
      (loadedHandler (newActivateElem false c2Elem)).dataSrcset = none) ∧
    ((reallyOldActivateElem false c2Elem).dataSrc = none ∧
      (reallyOldActivateElem false c2Elem).dataSrcset = none)) :=
  ⟨by decide, C2_amended_strip_timing false c2Elem (by decide)⟩

/-- Invariant for the debounce argument: j frame callbacks after a scan,
either the counter reads j and the loop is live, or the loop halted with
an empty working set (counter parked at -1). -/
def C6Q (j : Nat) (t : OldState) : Prop :=
  (t.frameCount = (j : Int) ∧ 0 < t.elsLength) ∨ (t.frameCount = -1 ∧ t.elsLength = 0)

/-- A `_setSrcs` invocation in `old` mode performs the visibility scan
exactly when the frame counter has reached `maxFrameCount`. -/
theorem oldStep_scanned_iff (cfg : Cfg) (v : Viewport) (pf : Bool) (s : OldState) :
    (oldStep cfg v pf s).scanned = true ↔ s.frameCount = cfg.maxFrameCount := by
  simp only [oldStep]
  split_ifs with h1 h2 <;> simp [h1]

/-- Right after a scan the counter is 0 (loop live) or the loop halted
empty. -/
theorem oldStep_scan_post (cfg : Cfg) (v : Viewport) (pf : Bool) (s : OldState)
    (h : s.frameCount = cfg.maxFrameCount) :
    C6Q 0 (oldStep cfg v pf s).state := by
  simp only [oldStep, if_pos h]
  split_ifs with h2
  · exact Or.inl ⟨rfl, h2⟩
  · refine Or.inr ⟨rfl, ?_⟩
    simp only [not_lt] at h2
    have hnn : (0 : Int) ≤ ((cleanup (scanPass v pf s.doc s.els).els s.els.length).length : Int) :=
      Int.natCast_nonneg _
    dsimp only
    omega

/-- While the counter has not reached `maxFrameCount`, a frame callback
does not scan and the invariant advances by one. -/
theorem oldStep_no_scan (cfg : Cfg) (v : Viewport) (pf : Bool) (s : OldState)
    (j : Nat) (hj : (j : Int) < cfg.maxFrameCount) (hQ : C6Q j s) :
    (oldStep cfg v pf s).scanned = false ∧ C6Q (j + 1) (oldStep cfg v pf s).state := by
  cases hQ with
  | inl hq =>
    have hne : s.frameCount ≠ cfg.maxFrameCount := by
      rw [hq.1]
      exact ne_of_lt hj
    have hsc : (oldStep cfg v pf s).scanned = false := by
      simp only [oldStep, if_neg hne]
      split_ifs <;> rfl
    have hst : (oldStep cfg v pf s).state = { s with frameCount := s.frameCount + 1 } := by
      simp only [oldStep, if_neg hne, if_pos hq.2]
    refine ⟨hsc, Or.inl ⟨?_, ?_⟩⟩
    · rw [hst]
      dsimp only
      rw [hq.1]
      push_cast
      ring
    · rw [hst]
      exact hq.2
  | inr hq =>
    have hne : s.frameCount ≠ cfg.maxFrameCount := by
      rw [hq.1]
      intro hc
      have hjn : (0 : Int) ≤ (j : Int) := Int.natCast_nonneg _
      omega
    have hnotpos : ¬ 0 < s.elsLength := by
      rw [hq.2]
      simp
    have hsc : (oldStep cfg v pf s).scanned = false := by
      simp only [oldStep, if_neg hne, if_neg hnotpos]
    have hst : (oldStep cfg v pf s).state = s := by
      simp only [oldStep, if_neg hne, if_neg hnotpos]
    refine ⟨hsc, Or.inr ⟨?_, ?_⟩⟩
    · rw [hst]
      exact hq.1
    · rw [hst]
      exact hq.2

/-- Iteration commutes with one more step. -/
theorem oldIter_succ_outer (cfg : Cfg) (v : Viewport) (pf : Bool) (n : Nat) (s : OldState) :
    oldIter cfg v pf (n + 1) s = (oldStep cfg v pf (oldIter cfg v pf n s)).state := by
  induction n generalizing s with
  | zero => rfl
  | succ n ih =>
    show oldIter cfg v pf (n + 1) (oldStep cfg v pf s).state = _
    rw [ih]
    rfl

theorem C6aux (cfg : Cfg) (v : Viewport) (pf : Bool) (s : OldState)
    (h0 : C6Q 0 (oldIter cfg v pf 1 s)) :
    ∀ m : Nat, (m : Int) < cfg.maxFrameCount →
      C6Q m (oldIter cfg v pf (m + 1) s) ∧
      (oldStep cfg v pf (oldIter cfg v pf (m + 1) s)).scanned = false := by
  intro m
  induction m with
  | zero => exact fun hm => ⟨h0, (oldStep_no_scan cfg v pf _ 0 hm h0).1⟩
  | succ m ih =>
    intro hm
    have hm' : (m : Int) < cfg.maxFrameCount := by
      have : (m : Int) < (m + 1 : Nat) := by push_cast; omega
      omega
    obtain ⟨hQ, _⟩ := ih hm'
    have hstep := oldStep_no_scan cfg v pf _ m hm' hQ
    have hQ2 : C6Q (m + 1) (oldIter cfg v pf (m + 2) s) := by
      rw [oldIter_succ_outer]
      exact hstep.2
    exact ⟨hQ2, (oldStep_no_scan cfg v pf _ (m + 1) hm hQ2).1⟩

/-- Claim C6: polling debounce.  If a frame callback performs a
visibility scan, then none of the following n frame callbacks scans, for
every 1 ≤ n ≤ maxFrameCount: at least maxFrameCount animation-frame
callbacks separate two consecutive scans. -/
theorem C6_polling_debounce (cfg : Cfg) (v : Viewport) (pf : Bool) (s : OldState)
    (n : Nat) (hscan : (oldStep cfg v pf s).scanned = true)
    (h1 : 1 ≤ n) (hK : (n : Int) ≤ cfg.maxFrameCount) :
    (oldStep cfg v pf (oldIter cfg v pf n s)).scanned = false := by
  obtain ⟨m, rfl⟩ : ∃ m, n = m + 1 := ⟨n - 1, by omega⟩
  have hfc : s.frameCount = cfg.maxFrameCount := (oldStep_scanned_iff cfg v pf s).mp hscan
  have h0 : C6Q 0 (oldIter cfg v pf 1 s) := oldStep_scan_post cfg v pf s hfc
  have hm : (m : Int) < cfg.maxFrameCount := by
    push_cast at hK
    omega
  exact (C6aux cfg v pf s h0 m hm).2

def cfgK2 : Cfg := { defaultOptions with maxFrameCount := 2 }

def s6 : OldState := ⟨[{ }], [some 0], 1, 2⟩

/-- Witness for C6: maxFrameCount 2, one off-screen element; the scan at
the counter limit is followed by two scanless frame callbacks. -/
theorem C6_witness :
    ((oldStep cfgK2 vpStd false s6).scanned = true) ∧ (1 ≤ 2) ∧
    ((2 : Int) ≤ cfgK2.maxFrameCount) ∧
    (oldStep cfgK2 vpStd false (oldIter cfgK2 vpStd false 2 s6)).scanned = false :=
  ⟨by decide, by decide, by decide,
    C6_polling_debounce cfgK2 vpStd false s6 2 (by decide) (by decide) (by decide)⟩

/-- The transient `lazyloaded` JS property of the element behind a
reference (false for a dangling reference). -/
def flagAt (doc : List Elem) (id : Nat) : Bool :=
  match doc.get? id with
  | some e => e.lazyloaded
  | none => false

/-- Fact that `_updateElement` never touches the `lazyloaded` property, so the
`old`-path activation leaves it at the true it was just set to. -/
theorem oldActivateElem_flag (pf : Bool) (e : Elem) :
    (oldActivateElem pf e).lazyloaded = true := by
  simp only [oldActivateElem, updateElement, removeDataAttrs]
  split_ifs <;> rfl

theorem flagAt_eq_of_get {doc : List Elem} {id : Nat} {e : Elem}
    (h : doc.get? id = some e) : flagAt doc id = e.lazyloaded := by
  unfold flagAt
  rw [h]

theorem flagAt_set_ne (doc : List Elem) (x : Elem) {j id : Nat} (h : j ≠ id) :
    flagAt (doc.set j x) id = flagAt doc id := by
  unfold flagAt
  rw [lget_set_ne doc x h]

theorem flagAt_set_self (doc : List Elem) (x : Elem) {j : Nat} (h : j < doc.length) :
    flagAt (doc.set j x) j = x.lazyloaded := by
  unfold flagAt
  rw [lget_set_self doc j x h]

/-- One scan-loop iteration neither unsets a set `lazyloaded` flag nor
activates the flagged element again. -/
theorem scanBody_flag_true (v : Viewport) (pf : Bool) (acc : ScanAcc) (i : Nat)
    (id : Nat) (h : flagAt acc.doc id = true) :
    flagAt (scanBody v pf acc i).doc id = true ∧
    (scanBody v pf acc i).acts.count id = acc.acts.count id := by
  unfold scanBody
  split
  next j hslot =>
    split
    next e hj =>
      split_ifs with hc
      · have hji : j ≠ id := by
          intro hji
          rw [hji] at hj
          rw [flagAt_eq_of_get hj] at h
          simp only [Bool.and_eq_true, decide_eq_true_eq] at hc
          rw [h] at hc
          exact absurd hc.1 (by simp)
        constructor
        · show flagAt (acc.doc.set j (oldActivateElem pf e)) id = true
          rw [flagAt_set_ne acc.doc (oldActivateElem pf e) hji]
          exact h
        · show (acc.acts ++ [j]).count id = acc.acts.count id
          rw [List.count_append]
          simp [List.count_singleton', hji]
      · exact ⟨h, rfl⟩
    next hj => exact ⟨h, rfl⟩
  next hslot => exact ⟨h, rfl⟩

/-- One scan-loop iteration, seen from an unflagged element: either it is
untouched, or it is activated exactly now — counted once and flagged. -/
theorem scanBody_flag_false (v : Viewport) (pf : Bool) (acc : ScanAcc) (i : Nat)
    (id : Nat) (h : flagAt acc.doc id = false) :
    (flagAt (scanBody v pf acc i).doc id = false ∧
      (scanBody v pf acc i).acts.count id = acc.acts.count id) ∨
    (flagAt (scanBody v pf acc i).doc id = true ∧
      (scanBody v pf acc i).acts.count id = acc.acts.count id + 1) := by
  unfold scanBody
  split
  next j hslot =>
    split
    next e hj =>
      split_ifs with hc
      · by_cases hji : j = id
        · subst hji
          refine Or.inr ⟨?_, ?_⟩
          · show flagAt (acc.doc.set j (oldActivateElem pf e)) j = true
            rw [flagAt_set_self acc.doc _ (lget_some_lt hj)]
            exact oldActivateElem_flag pf e
          · show (acc.acts ++ [j]).count j = acc.acts.count j + 1
            rw [List.count_append]
            simp
        · refine Or.inl ⟨?_, ?_⟩
          · show flagAt (acc.doc.set j (oldActivateElem pf e)) id = false
            rw [flagAt_set_ne acc.doc (oldActivateElem pf e) hji]
            exact h
          · show (acc.acts ++ [j]).count id = acc.acts.count id
            rw [List.count_append]
            simp [List.count_singleton', hji]
      · exact Or.inl ⟨h, rfl⟩
    next hj => exact Or.inl ⟨h, rfl⟩
  next hslot => exact Or.inl ⟨h, rfl⟩

/-- Fold form of `scanBody_flag_true` over any index list. -/
theorem scanFold_flag_true (v : Viewport) (pf : Bool) (l : List Nat) (acc : ScanAcc)
    (id : Nat) (h : flagAt acc.doc id = true) :
    flagAt (l.foldl (scanBody v pf) acc).doc id = true ∧
    (l.foldl (scanBody v pf) acc).acts.count id = acc.acts.count id := by
  induction l generalizing acc with
  | nil => exact ⟨h, rfl⟩
  | cons i t ih =>
    rw [List.foldl_cons]
    obtain ⟨h1, h2⟩ := scanBody_flag_true v pf acc i id h
    obtain ⟨h3, h4⟩ := ih (scanBody v pf acc i) h1
    exact ⟨h3, by rw [h4, h2]⟩

/-- Fold form of `scanBody_flag_false`: an unflagged element is activated
at most once over the whole scan loop, and if it is, it ends flagged. -/
theorem scanFold_flag_false (v : Viewport) (pf : Bool) (l : List Nat) (acc : ScanAcc)
    (id : Nat) (h : flagAt acc.doc id = false) :
    (flagAt (l.foldl (scanBody v pf) acc).doc id = false ∧
      (l.foldl (scanBody v pf) acc).acts.count id = acc.acts.count id) ∨
    (flagAt (l.foldl (scanBody v pf) acc).doc id = true ∧
      (l.foldl (scanBody v pf) acc).acts.count id = acc.acts.count id + 1) := by
  induction l generalizing acc with
  | nil => exact Or.inl ⟨h, rfl⟩
  | cons i t ih =>
    rw [List.foldl_cons]
    rcases scanBody_flag_false v pf acc i id h with ⟨h1, h2⟩ | ⟨h1, h2⟩
    · rcases ih (scanBody v pf acc i) h1 with ⟨h3, h4⟩ | ⟨h3, h4⟩
      · exact Or.inl ⟨h3, by rw [h4, h2]⟩
      · exact Or.inr ⟨h3, by rw [h4, h2]⟩
    · obtain ⟨h3, h4⟩ := scanFold_flag_true v pf t (scanBody v pf acc i) id h1
      exact Or.inr ⟨h3, by rw [h4, h2]⟩

/-- An `old`-mode frame callback either scanned — its store and
activation list are those of the scan loop — or it left both alone. -/
theorem oldStep_doc_acts (cfg : Cfg) (v : Viewport) (pf : Bool) (s : OldState) :
    ((oldStep cfg v pf s).state.doc = (scanPass v pf s.doc s.els).doc ∧
      (oldStep cfg v pf s).activated = (scanPass v pf s.doc s.els).acts) ∨
    ((oldStep cfg v pf s).state.doc = s.doc ∧ (oldStep cfg v pf s).activated = []) := by
  simp only [oldStep]
  split_ifs with h1 h2
  · exact Or.inl ⟨rfl, rfl⟩
  · exact Or.inl ⟨rfl, rfl⟩
  · exact Or.inr ⟨rfl, rfl⟩
  · exact Or.inr ⟨rfl, rfl⟩

/-- A flagged element survives a whole `old`-mode frame callback flagged
and unactivated. -/
theorem oldStep_flag_true (cfg : Cfg) (v : Viewport) (pf : Bool) (s : OldState)
    (id : Nat) (h : flagAt s.doc id = true) :
    flagAt (oldStep cfg v pf s).state.doc id = true ∧
    (oldStep cfg v pf s).activated.count id = 0 := by
  rcases oldStep_doc_acts cfg v pf s with ⟨hd, ha⟩ | ⟨hd, ha⟩
  · obtain ⟨h3, h4⟩ := scanFold_flag_true v pf (List.range s.els.length) ⟨s.doc, s.els, []⟩ id h
    rw [hd, ha]
    unfold scanPass
    exact ⟨h3, by simpa using h4⟩
  · rw [hd, ha]
    exact ⟨h, rfl⟩

/-- An unflagged element is activated at most once by one `old`-mode
frame callback, and is flagged afterwards if it was. -/
theorem oldStep_flag_false (cfg : Cfg) (v : Viewport) (pf : Bool) (s : OldState)
    (id : Nat) (h : flagAt s.doc id = false) :
    ((oldStep cfg v pf s).activated.count id = 0 ∧
      flagAt (oldStep cfg v pf s).state.doc id = false) ∨
    ((oldStep cfg v pf s).activated.count id = 1 ∧
      flagAt (oldStep cfg v pf s).state.doc id = true) := by
  rcases oldStep_doc_acts cfg v pf s with ⟨hd, ha⟩ | ⟨hd, ha⟩
  · rw [hd, ha]
    unfold scanPass
    rcases scanFold_flag_false v pf (List.range s.els.length) ⟨s.doc, s.els, []⟩ id h with
      ⟨h3, h4⟩ | ⟨h3, h4⟩
    · exact Or.inl ⟨by simpa using h4, h3⟩
    · exact Or.inr ⟨by simpa using h4, h3⟩
  · rw [hd, ha]
    exact Or.inl ⟨rfl, h⟩

/-- A flagged element is never activated over any number of further
frame callbacks. -/
theorem oldTrace_flag_true (cfg : Cfg) (v : Viewport) (pf : Bool) (n : Nat)
    (s : OldState) (id : Nat) (h : flagAt s.doc id = true) :
    (oldTrace cfg v pf n s).count id = 0 := by
  induction n generalizing s with
  | zero => rfl
  | succ n ih =>
    show ((oldStep cfg v pf s).activated ++
      oldTrace cfg v pf n (oldStep cfg v pf s).state).count id = 0
    rw [List.count_append]
    obtain ⟨h1, h2⟩ := oldStep_flag_true cfg v pf s id h
    rw [h2, ih (oldStep cfg v pf s).state h1]

/-- Claim C9: within the polling strategy every element is activated at
most once across the lifetime of the loop, whatever state the loop is in
(including working sets with stale entries that survive compaction): once
the per-element transient `lazyloaded` flag is set by an activation, no
later scan updates that element again. -/
theorem C9_polling_at_most_once (cfg : Cfg) (v : Viewport) (pf : Bool)
    (n : Nat) (s : OldState) (id : Nat) :
    (oldTrace cfg v pf n s).count id ≤ 1 := by
  induction n generalizing s with
  | zero => simp [oldTrace]
  | succ n ih =>
    show ((oldStep cfg v pf s).activated ++
      oldTrace cfg v pf n (oldStep cfg v pf s).state).count id ≤ 1
    rw [List.count_append]
    cases hf : flagAt s.doc id with
    | true =>
      obtain ⟨h1, h2⟩ := oldStep_flag_true cfg v pf s id hf
      rw [h2, oldTrace_flag_true cfg v pf n _ id h1]
      omega
    | false =>
      rcases oldStep_flag_false cfg v pf s id hf with ⟨h1, h2⟩ | ⟨h1, h2⟩
      · rw [h1]
        simpa using ih (oldStep cfg v pf s).state
      · rw [h1, oldTrace_flag_true cfg v pf n _ id h2]

/-- An entry the `_intersection` loop treats as in-viewport. -/
def posEntry (en : Entry) : Bool :=
  decide (0 < en.ratioVal)

/-- Unfolded effect of the `_intersection` entry loop: the activations
and unobserve calls are exactly the targets of the positive-ratio
entries, in batch order, and the store is untouched at every reference
that is not such a target. -/
theorem inter_fold (pf : Bool) (l : List Entry) (o : IntersectOut) :
    ((l.foldl (interBody pf) o).activated
      = o.activated ++ (l.filter posEntry).map Entry.target) ∧
    ((l.foldl (interBody pf) o).unobserved
      = o.unobserved ++ (l.filter posEntry).map Entry.target) ∧
    ∀ id : Nat, id ∉ (l.filter posEntry).map Entry.target →
      (l.foldl (interBody pf) o).doc.get? id = o.doc.get? id := by
  induction l generalizing o with
  | nil => simp
  | cons en t ih =>
    obtain ⟨ha, hu, hd⟩ := ih (interBody pf o en)
    by_cases hp : 0 < en.ratioVal
    · have hpe : posEntry en = true := by simp [posEntry, hp]
      refine ⟨?_, ?_, ?_⟩
      · rw [List.foldl_cons, ha]
        simp [interBody, hp, hpe, List.filter_cons]
      · rw [List.foldl_cons, hu]
        simp [interBody, hp, hpe, List.filter_cons]
      · intro id hid
        rw [List.filter_cons, hpe] at hid
        simp only [if_true, List.map_cons, List.mem_cons] at hid
        push_neg at hid
        rw [List.foldl_cons, hd id hid.2]
        simp only [interBody, if_pos hp]
        cases hg : o.doc.get? en.target with
        | none => simp [hg]
        | some e =>
          simp only [hg]
          exact lget_set_ne o.doc (newActivateElem pf e) fun hc => hid.1 (hc ▸ rfl)
    · have hpe : posEntry en = false := by simp [posEntry, hp]
      have hskip : interBody pf o en = o := by simp [interBody, hp]
      rw [hskip] at ha hu hd
      refine ⟨?_, ?_, ?_⟩
      · rw [List.foldl_cons, hskip, ha, List.filter_cons, hpe]
        simp
      · rw [List.foldl_cons, hskip, hu, List.filter_cons, hpe]
        simp
      · intro id hid
        rw [List.filter_cons, hpe] at hid
        have hid2 : id ∉ List.map Entry.target (List.filter posEntry t) := by
          simpa using hid
        rw [List.foldl_cons, hskip]
        exact hd id hid2

/-- Claim C5: in the observation-strategy callback, the activated
references are exactly the targets of the entries with positive
intersection ratio (each exactly once, in order), every activation is
paired with an unobserve of the same target in the same order, and any
reference that is not the target of a positive-ratio entry — in
particular the target of every zero-ratio entry — has its element left
untouched in the store. -/
theorem C5_observer_zero_ratio_skipped (pf : Bool) (entries : List Entry)
    (doc : List Elem) (n : Int) (conn : Bool) (id : Nat)
    (h : id ∉ (entries.filter posEntry).map Entry.target) :
    (intersectionCb pf entries doc n conn).activated
      = (entries.filter posEntry).map Entry.target ∧
    (intersectionCb pf entries doc n conn).unobserved
      = (intersectionCb pf entries doc n conn).activated ∧
    (intersectionCb pf entries doc n conn).doc.get? id = doc.get? id := by
  obtain ⟨ha, hu, hd⟩ :=
    inter_fold pf entries ⟨doc, n, if n = 0 then false else conn, [], []⟩
  unfold intersectionCb
  refine ⟨?_, ?_, ?_⟩
  · rw [ha]
    rfl
  · rw [ha, hu]
  · exact hd id h

def c5Entries : List Entry := [⟨0, 0⟩, ⟨1, 1⟩]

def c5Doc : List Elem := [elDataSrc "p", elDataSrc "q"]

/-- Witness for C5: a batch with one zero-ratio entry (target 0) and one
positive entry (target 1). -/
theorem C5_witness :
    (0 ∉ (c5Entries.filter posEntry).map Entry.target) ∧
    ((intersectionCb true c5Entries c5Doc 2 true).activated
        = (c5Entries.filter posEntry).map Entry.target ∧
      (intersectionCb true c5Entries c5Doc 2 true).unobserved
        = (intersectionCb true c5Entries c5Doc 2 true).activated ∧
      (intersectionCb true c5Entries c5Doc 2 true).doc.get? 0 = c5Doc.get? 0) :=
  ⟨by decide, C5_observer_zero_ratio_skipped true c5Entries c5Doc 2 true 0 (by decide)⟩

/-- Witness for C10 at a concrete bare element. -/
theorem C10_witness :
    ((⟨some "live", none, none, none, none, none, true, false, false,
        ⟨0, 9, 0, 9⟩, ⟨0, 0, 0, 0⟩⟩ : Elem).dataSrc = none) ∧
    ((⟨some "live", none, none, none, none, none, true, false, false,
        ⟨0, 9, 0, 9⟩, ⟨0, 0, 0, 0⟩⟩ : Elem).dataSrcset = none) ∧
    ((⟨some "live", none, none, none, none, none, true, false, false,
        ⟨0, 9, 0, 9⟩, ⟨0, 0, 0, 0⟩⟩ : Elem).dataLazyload = none) ∧
    updateElement true (⟨some "live", none, none, none, none, none, true, false, false,
        ⟨0, 9, 0, 9⟩, ⟨0, 0, 0, 0⟩⟩ : Elem) =
      ⟨(⟨some "live", none, none, none, none, none, true, false, false,
        ⟨0, 9, 0, 9⟩, ⟨0, 0, 0, 0⟩⟩ : Elem), false⟩ :=
  ⟨by decide, by decide, by decide,
    C10_updater_frame true _ (by decide) (by decide) (by decide)⟩
